import Mathlib

/-!
Verification of `apps/server/src/scripts/llm_client.py`.

The script is a single-shot command-line request handler: it reads one JSON
argument, validates `message` and `apiKey` (with an environment fallback for
the key), delegates to an external chat client (`LlmChat` from
`emergentintegrations`), and prints exactly one JSON object to standard
output, setting the process exit code.

Shallow embedding:
  * `JVal` models the Python values produced by `json.loads` (JSON values;
    numeric literals are modelled as integers, which suffices for every
    property considered here).
  * `PyExc` models a raised Python exception: its class name
    (`type(e).__name__`) and its message (`str(e)`).
  * `Collaborator` models the external chat client as an opaque capability:
    session construction (`LlmChat(api_key, session_id, system_message)`),
    model selection (`chat.with_model(provider, model)`), and message
    submission (`chat.send_message(...)`, returning a free-text response
    string or raising), each either succeeding or raising an exception.
  * `json.loads` itself is external library code, modelled as an oracle
    `parse : String → Except PyExc JVal`; a parse failure is a raised
    `Exception` (concretely `json.JSONDecodeError`, a `ValueError`).
  * `os.getenv` is modelled by an environment oracle
    `env : String → Option String`.
  * `datetime.now().isoformat()` is modelled by the parameter `nowIso`, the
    string the wall clock yields at the single sampling point inside the
    invocation.
  * The result of a run (`RunResult`) records the JSON objects printed to
    standard output (one list entry per `print(json.dumps(...))`, each a
    key/value list in insertion order, printed as one newline-terminated
    line), the trace of collaborator calls attempted, and the process exit
    code.

Control-flow note: the whole body of `main` sits inside
`try: ... except Exception as e: ...`.  `sys.exit(1)` raises `SystemExit`,
which derives from `BaseException` but not from `Exception`, so the
validation exits propagate past the handler and terminate the process with
status 1; any `Exception` (including a JSON parse failure) is caught and
converted to a `{"error": ..., "type": ...}` body with exit code 1.
-/

namespace LlmClient

/-- A Python value as produced by `json.loads` (plus the values the handler
itself builds). Numeric literals are modelled as integers. -/
inductive JVal where
  | str (s : String)
  | int (n : Int)
  | bool (b : Bool)
  | none
  | list (xs : List JVal)
  | dict (kvs : List (String × JVal))
deriving Repr

/-- A raised Python exception: class name (`type(e).__name__`) and message
(`str(e)`). -/
structure PyExc where
  typeName : String
  msg : String
deriving Repr, DecidableEq

/-- The Python type name of a `JVal`, as used in `AttributeError` messages. -/
def pyTypeName : JVal → String
  | .str _ => "str"
  | .int _ => "int"
  | .bool _ => "bool"
  | .none => "NoneType"
  | .list _ => "list"
  | .dict _ => "dict"

/-- Python truthiness (`if not x`) of a `JVal`. -/
def truthy : JVal → Bool
  | .str s => !(s == "")
  | .int n => !(n == 0)
  | .bool b => b
  | .none => false
  | .list xs => !xs.isEmpty
  | .dict kvs => !kvs.isEmpty

/-- Python `dict.get(key, default)`: the stored value when the key is
present (even when that value is `None` or empty), the default otherwise. -/
def dictGet (kvs : List (String × JVal)) (key : String) (dflt : JVal) : JVal :=
  (kvs.lookup key).getD dflt

/-- Python `os.getenv(key, default)`: the value of the variable when set (even
when set to the empty string), the default otherwise. -/
def getenv (env : String → Option String) (key dflt : String) : String :=
  (env key).getD dflt

/-- Attribute lookup `input_data.get`: succeeds exactly when `input_data`
is a dict; on any other value the first `.get` call raises
`AttributeError`. -/
def asDict : JVal → Except PyExc (List (String × JVal))
  | .dict kvs => .ok kvs
  | v => .error ⟨"AttributeError",
      "\x27" ++ pyTypeName v ++ "\x27 object has no attribute \x27get\x27"⟩

/-- The external chat client (`emergentintegrations.llm.chat`), opaque to
the handler: each operation either succeeds or raises an exception, and
message submission returns a free-text response string. -/
structure Collaborator where
  construct : JVal → JVal → JVal → Option PyExc
  withModel : JVal → JVal → Option PyExc
  send : JVal → Except PyExc String

/-- One attempted call on the external chat client, in order. -/
inductive CollabCall where
  | construct (apiKey sessionId systemMessage : JVal)
  | withModel (provider model : JVal)
  | send (message : JVal)
deriving Repr

/-- Observable outcome of one invocation: the JSON objects printed to
standard output (one entry per printed line, each object a key/value list
in insertion order), the trace of collaborator calls attempted, and the
process exit code. -/
structure RunResult where
  out : List (List (String × JVal))
  trace : List CollabCall
  exitCode : Nat
deriving Repr

/-- The JSON body printed by the `except Exception` handler:
`json.dumps({"error": str(e), "type": type(e).__name__})`. -/
def excOut (e : PyExc) : List (List (String × JVal)) :=
  [[("error", .str e.msg), ("type", .str e.typeName)]]

/-- The handler body from the point where `input_data` is known to be a
dict: field extraction with defaults, the two validation checks, then the
three collaborator calls. Mirrors `llm_client.py` lines 22-50. -/
def mainDict (kvs : List (String × JVal)) (env : String → Option String)
    (collab : Collaborator) (nowIso : String) : RunResult :=
  let session_id := dictGet kvs "sessionId" (.str "default")
  let message := dictGet kvs "message" (.str "")
  let provider := dictGet kvs "provider" (.str "openai")
  let model := dictGet kvs "model" (.str "gpt-4o-mini")
  let api_key := dictGet kvs "apiKey" (.str (getenv env "EMERGENT_LLM_KEY" ""))
  let system_message :=
    dictGet kvs "systemMessage" (.str "You are Shadow, an AI coding agent.")
  if !truthy message then
    ⟨[[("error", .str "No message provided")]], [], 1⟩
  else if !truthy api_key then
    ⟨[[("error", .str "No API key provided")]], [], 1⟩
  else
    let tr1 := [CollabCall.construct api_key session_id system_message]
    match collab.construct api_key session_id system_message with
    | some e => ⟨excOut e, tr1, 1⟩
    | Option.none =>
      let tr2 := tr1 ++ [CollabCall.withModel provider model]
      match collab.withModel provider model with
      | some e => ⟨excOut e, tr2, 1⟩
      | Option.none =>
        let tr3 := tr2 ++ [CollabCall.send message]
        match collab.send message with
        | .error e => ⟨excOut e, tr3, 1⟩
        | .ok response =>
          ⟨[[("success", .bool true), ("response", .str response),
             ("timestamp", .str nowIso)]], tr3, 0⟩

/-- The handler body once the positional argument is present: JSON parsing
(a parse failure is an `Exception`, caught by the blanket handler), the
dict-attribute access, then `mainDict`. -/
def mainArg (arg : String) (parse : String → Except PyExc JVal)
    (env : String → Option String) (collab : Collaborator)
    (nowIso : String) : RunResult :=
  match parse arg with
  | .error e => ⟨excOut e, [], 1⟩
  | .ok input_data =>
    match asDict input_data with
    | .error e => ⟨excOut e, [], 1⟩
    | .ok kvs => mainDict kvs env collab nowIso

/-- `async def main()` of `llm_client.py`, as run by `asyncio.run`:
`sys.argv` is `argv`; `len(sys.argv) < 2` (no positional argument) prints
the `No input provided` body and exits 1 before any parsing; otherwise the
argument `sys.argv[1]` is handled by `mainArg`. -/
def main (argv : List String) (parse : String → Except PyExc JVal)
    (env : String → Option String) (collab : Collaborator)
    (nowIso : String) : RunResult :=
  match argv with
  | _ :: arg :: _ => mainArg arg parse env collab nowIso
  | _ => ⟨[[("error", .str "No input provided")]], [], 1⟩

/-- The success shape of ChatResult:
`{"success": true, "response": <string>, "timestamp": <string>}`. -/
def isSuccessShape (o : List (String × JVal)) : Prop :=
  ∃ r t, o = [("success", .bool true), ("response", .str r),
              ("timestamp", .str t)]

/-- The failure shape of ChatResult: `{"error": <string>}` with an optional
trailing `"type": <string>` field. -/
def isFailureShape (o : List (String × JVal)) : Prop :=
  (∃ m, o = [("error", .str m)]) ∨
  (∃ m t, o = [("error", .str m), ("type", .str t)])

/-! Concrete oracles used to instantiate the theorems below on closed
inputs. -/

/-- An environment with no variables set. -/
def cEnvEmpty : String → Option String := fun _ => Option.none

/-- An environment in which the fallback variable holds a non-empty key. -/
def cEnvKey : String → Option String :=
  fun k => if k == "EMERGENT_LLM_KEY" then some "envkey" else Option.none

/-- A parse oracle returning a fixed parsed value. -/
def cParseOf (v : JVal) : String → Except PyExc JVal := fun _ => .ok v

/-- A parse oracle that fails the way `json.loads` fails on malformed
input: it raises `json.JSONDecodeError`. -/
def cParseBad : String → Except PyExc JVal :=
  fun _ => .error ⟨"JSONDecodeError", "Expecting value: line 1 column 1 (char 0)"⟩

/-- A collaborator whose calls all succeed and that answers every message
with the string `hello`. -/
def cCollabEcho : Collaborator :=
  ⟨fun _ _ _ => Option.none, fun _ _ => Option.none, fun _ => .ok "hello"⟩

/-- A collaborator whose message submission raises a `RuntimeError`. -/
def cCollabBoom : Collaborator :=
  ⟨fun _ _ _ => Option.none, fun _ _ => Option.none,
   fun _ => .error ⟨"RuntimeError", "provider unavailable"⟩⟩

/-- Unfolding lemma: with at least one positional argument, `main` handles
`sys.argv[1]` through `mainArg`. -/
theorem main_cons (prog arg : String) (rest : List String)
    (parse : String → Except PyExc JVal) (env : String → Option String)
    (collab : Collaborator) (nowIso : String) :
    main (prog :: arg :: rest) parse env collab nowIso =
      mainArg arg parse env collab nowIso := rfl

/-- Claim C6: when no positional argument is present beyond the program
name, the handler prints exactly the JSON object with single field `error`
set to `No input provided` and exits with code 1; the result is the same
for every parse oracle, so no JSON parsing is attempted, and no
collaborator call is made. -/
theorem C6_no_input (argv : List String) (h : argv.length < 2)
    (parse : String → Except PyExc JVal) (env : String → Option String)
    (collab : Collaborator) (nowIso : String) :
    main argv parse env collab nowIso =
      ⟨[[("error", JVal.str "No input provided")]], [], 1⟩ := by
  match argv with
  | [] => rfl
  | [_] => rfl
  | _ :: _ :: _ => simp only [List.length_cons] at h; omega

/-- Witness for C6 at the concrete invocation with only the program name. -/
theorem C6_no_input_witness :
    main ["llm_client.py"] cParseBad cEnvEmpty cCollabEcho "T" =
      ⟨[[("error", JVal.str "No input provided")]], [], 1⟩ :=
  C6_no_input ["llm_client.py"] (by decide) cParseBad cEnvEmpty cCollabEcho "T"

/-- Claim C4: for every well-formed JSON object input whose `message` field
is absent or the empty string, the handler prints exactly the JSON object
with single field `error` set to `No message provided` (no `type` field)
and exits with code 1, whatever the other fields (including `apiKey`) and
the environment hold; the empty trace shows the message check wins before
any collaborator call. -/
theorem C4_no_message (prog arg : String) (rest : List String)
    (parse : String → Except PyExc JVal) (env : String → Option String)
    (collab : Collaborator) (nowIso : String) (kvs : List (String × JVal))
    (hp : parse arg = .ok (.dict kvs))
    (hm : kvs.lookup "message" = Option.none ∨
          kvs.lookup "message" = some (.str "")) :
    main (prog :: arg :: rest) parse env collab nowIso =
      ⟨[[("error", JVal.str "No message provided")]], [], 1⟩ := by
  rw [main_cons]
  rcases hm with hm | hm <;>
    simp [mainArg, hp, asDict, mainDict, dictGet, truthy, hm]

/-- Witness for C4: input object carrying a valid `apiKey` but no
`message`. -/
theorem C4_no_message_witness :
    main ["llm_client.py", "x"] (cParseOf (.dict [("apiKey", .str "k")]))
        cEnvKey cCollabEcho "T" =
      ⟨[[("error", JVal.str "No message provided")]], [], 1⟩ :=
  C4_no_message "llm_client.py" "x" [] _ cEnvKey cCollabEcho "T"
    [("apiKey", .str "k")] rfl (Or.inl rfl)

/-- Claim C5: for every well-formed JSON object input with a truthy
`message` but `apiKey` absent from the object and the fallback environment
variable `EMERGENT_LLM_KEY` unset or empty, the handler prints exactly the
JSON object with single field `error` set to `No API key provided` (no
`type` field) and exits with code 1, before any collaborator call. -/
theorem C5_no_api_key (prog arg : String) (rest : List String)
    (parse : String → Except PyExc JVal) (env : String → Option String)
    (collab : Collaborator) (nowIso : String) (kvs : List (String × JVal))
    (hp : parse arg = .ok (.dict kvs))
    (hm : truthy (dictGet kvs "message" (.str "")) = true)
    (hk : kvs.lookup "apiKey" = Option.none)
    (he : env "EMERGENT_LLM_KEY" = Option.none ∨
          env "EMERGENT_LLM_KEY" = some "") :
    main (prog :: arg :: rest) parse env collab nowIso =
      ⟨[[("error", JVal.str "No API key provided")]], [], 1⟩ := by
  rw [main_cons]
  rcases he with he | he <;>
    (simp [mainArg, hp, asDict, mainDict, hm];
     simp [dictGet, getenv, truthy, hk, he])

/-- Witness for C5: a non-empty message, no `apiKey` field, empty
environment. -/
theorem C5_no_api_key_witness :
    main ["llm_client.py", "x"] (cParseOf (.dict [("message", .str "hi")]))
        cEnvEmpty cCollabEcho "T" =
      ⟨[[("error", JVal.str "No API key provided")]], [], 1⟩ :=
  C5_no_api_key "llm_client.py" "x" [] _ cEnvEmpty cCollabEcho "T"
    [("message", .str "hi")] rfl rfl rfl (Or.inl rfl)

/-- Claim C9: the environment fallback applies only when the key `apiKey`
is absent from the JSON object: when `apiKey` is present and equal to the
empty string, the handler fails with the `No API key provided` body and
exit code 1 for every environment, in particular when the fallback
variable holds a non-empty value. -/
theorem C9_empty_api_key_no_fallback (prog arg : String) (rest : List String)
    (parse : String → Except PyExc JVal) (env : String → Option String)
    (collab : Collaborator) (nowIso : String) (kvs : List (String × JVal))
    (hp : parse arg = .ok (.dict kvs))
    (hm : truthy (dictGet kvs "message" (.str "")) = true)
    (hk : kvs.lookup "apiKey" = some (.str "")) :
    main (prog :: arg :: rest) parse env collab nowIso =
      ⟨[[("error", JVal.str "No API key provided")]], [], 1⟩ := by
  rw [main_cons]
  simp [mainArg, hp, asDict, mainDict, hm]
  simp [dictGet, truthy, hk]

/-- Witness for C9: `apiKey` present but empty while the environment holds
a non-empty key, which is ignored. -/
theorem C9_empty_api_key_no_fallback_witness :
    main ["llm_client.py", "x"]
        (cParseOf (.dict [("message", .str "hi"), ("apiKey", .str "")]))
        cEnvKey cCollabEcho "T" =
      ⟨[[("error", JVal.str "No API key provided")]], [], 1⟩ :=
  C9_empty_api_key_no_fallback "llm_client.py" "x" [] _ cEnvKey cCollabEcho "T"
    [("message", .str "hi"), ("apiKey", .str "")] rfl rfl rfl

/-- Claim C10: the message check is a truthiness test: for every
well-formed JSON object input whose `message` field is present but falsy
(for example 0, false, null, an empty array or an empty object), the
handler prints exactly the `No message provided` body and exits with code
1; the empty trace shows the value is never passed to the collaborator. -/
theorem C10_falsy_message (prog arg : String) (rest : List String)
    (parse : String → Except PyExc JVal) (env : String → Option String)
    (collab : Collaborator) (nowIso : String) (kvs : List (String × JVal))
    (v : JVal)
    (hp : parse arg = .ok (.dict kvs))
    (hm : kvs.lookup "message" = some v)
    (hv : truthy v = false) :
    main (prog :: arg :: rest) parse env collab nowIso =
      ⟨[[("error", JVal.str "No message provided")]], [], 1⟩ := by
  rw [main_cons]
  simp [mainArg, hp, asDict, mainDict, dictGet, hm, hv]

/-- Witness for C10: `message` present and equal to the number 0, with a
valid `apiKey`. -/
theorem C10_falsy_message_witness :
    main ["llm_client.py", "x"]
        (cParseOf (.dict [("message", .int 0), ("apiKey", .str "k")]))
        cEnvEmpty cCollabEcho "T" =
      ⟨[[("error", JVal.str "No message provided")]], [], 1⟩ :=
  C10_falsy_message "llm_client.py" "x" [] _ cEnvEmpty cCollabEcho "T"
    [("message", .int 0), ("apiKey", .str "k")] (.int 0) rfl rfl rfl

/-- Claim C2: for every well-formed JSON object input with a truthy
`message` and a resolvable API key, when the collaborator returns the
response string R, the handler prints exactly the JSON object with fields
`success` set to true, `response` set to R and `timestamp` set to the
string the wall clock yields at the single in-invocation sampling point,
and the exit code is 0. -/
theorem C2_success_output (prog arg : String) (rest : List String)
    (parse : String → Except PyExc JVal) (env : String → Option String)
    (collab : Collaborator) (nowIso : String) (kvs : List (String × JVal))
    (R : String)
    (hp : parse arg = .ok (.dict kvs))
    (hm : truthy (dictGet kvs "message" (.str "")) = true)
    (hk : truthy (dictGet kvs "apiKey"
            (.str (getenv env "EMERGENT_LLM_KEY" ""))) = true)
    (hc : collab.construct
            (dictGet kvs "apiKey" (.str (getenv env "EMERGENT_LLM_KEY" "")))
            (dictGet kvs "sessionId" (.str "default"))
            (dictGet kvs "systemMessage"
              (.str "You are Shadow, an AI coding agent.")) = Option.none)
    (hw : collab.withModel (dictGet kvs "provider" (.str "openai"))
            (dictGet kvs "model" (.str "gpt-4o-mini")) = Option.none)
    (hs : collab.send (dictGet kvs "message" (.str "")) = .ok R) :
    (main (prog :: arg :: rest) parse env collab nowIso).out =
      [[("success", JVal.bool true), ("response", JVal.str R),
        ("timestamp", JVal.str nowIso)]] ∧
    (main (prog :: arg :: rest) parse env collab nowIso).exitCode = 0 := by
  rw [main_cons]
  simp [mainArg, hp, asDict, mainDict, hm, hk, hc, hw, hs]

/-- Witness for C2: message `hi` with key `k`, echo collaborator answering
`hello`. -/
theorem C2_success_output_witness :
    (main ["llm_client.py", "x"]
        (cParseOf (.dict [("message", .str "hi"), ("apiKey", .str "k")]))
        cEnvEmpty cCollabEcho "2026-01-01T00:00:00").out =
      [[("success", JVal.bool true), ("response", JVal.str "hello"),
        ("timestamp", JVal.str "2026-01-01T00:00:00")]] ∧
    (main ["llm_client.py", "x"]
        (cParseOf (.dict [("message", .str "hi"), ("apiKey", .str "k")]))
        cEnvEmpty cCollabEcho "2026-01-01T00:00:00").exitCode = 0 :=
  C2_success_output "llm_client.py" "x" [] _ cEnvEmpty cCollabEcho
    "2026-01-01T00:00:00" [("message", .str "hi"), ("apiKey", .str "k")]
    "hello" rfl rfl rfl rfl rfl rfl

/-- Claim C3: for every validated input on which the collaborator raises an
exception with message M — during session construction, model selection or
message submission — the handler prints exactly the JSON object with field
`error` set to M and field `type` set to the exception class name (a
non-empty category string), and exits with code 1. -/
theorem C3_collab_failure (prog arg : String) (rest : List String)
    (parse : String → Except PyExc JVal) (env : String → Option String)
    (collab : Collaborator) (nowIso : String) (kvs : List (String × JVal))
    (e : PyExc)
    (hp : parse arg = .ok (.dict kvs))
    (hm : truthy (dictGet kvs "message" (.str "")) = true)
    (hk : truthy (dictGet kvs "apiKey"
            (.str (getenv env "EMERGENT_LLM_KEY" ""))) = true)
    (hne : e.typeName ≠ "")
    (hfail :
      collab.construct
          (dictGet kvs "apiKey" (.str (getenv env "EMERGENT_LLM_KEY" "")))
          (dictGet kvs "sessionId" (.str "default"))
          (dictGet kvs "systemMessage"
            (.str "You are Shadow, an AI coding agent.")) = some e ∨
      (collab.construct
          (dictGet kvs "apiKey" (.str (getenv env "EMERGENT_LLM_KEY" "")))
          (dictGet kvs "sessionId" (.str "default"))
          (dictGet kvs "systemMessage"
            (.str "You are Shadow, an AI coding agent.")) = Option.none ∧
       collab.withModel (dictGet kvs "provider" (.str "openai"))
          (dictGet kvs "model" (.str "gpt-4o-mini")) = some e) ∨
      (collab.construct
          (dictGet kvs "apiKey" (.str (getenv env "EMERGENT_LLM_KEY" "")))
          (dictGet kvs "sessionId" (.str "default"))
          (dictGet kvs "systemMessage"
            (.str "You are Shadow, an AI coding agent.")) = Option.none ∧
       collab.withModel (dictGet kvs "provider" (.str "openai"))
          (dictGet kvs "model" (.str "gpt-4o-mini")) = Option.none ∧
       collab.send (dictGet kvs "message" (.str "")) = .error e)) :
    (main (prog :: arg :: rest) parse env collab nowIso).out =
      [[("error", JVal.str e.msg), ("type", JVal.str e.typeName)]] ∧
    (main (prog :: arg :: rest) parse env collab nowIso).exitCode = 1 ∧
    e.typeName ≠ "" := by
  rw [main_cons]
  rcases hfail with hc | ⟨hc, hw⟩ | ⟨hc, hw, hs⟩
  · simp [mainArg, hp, asDict, mainDict, excOut, hm, hk, hc, hne]
  · simp [mainArg, hp, asDict, mainDict, excOut, hm, hk, hc, hw, hne]
  · simp [mainArg, hp, asDict, mainDict, excOut, hm, hk, hc, hw, hs, hne]

/-- Witness for C3: a collaborator whose message submission raises a
`RuntimeError` with message `provider unavailable`. -/
theorem C3_collab_failure_witness :
    (main ["llm_client.py", "x"]
        (cParseOf (.dict [("message", .str "hi"), ("apiKey", .str "k")]))
        cEnvEmpty cCollabBoom "T").out =
      [[("error", JVal.str "provider unavailable"),
        ("type", JVal.str "RuntimeError")]] ∧
    (main ["llm_client.py", "x"]
        (cParseOf (.dict [("message", .str "hi"), ("apiKey", .str "k")]))
        cEnvEmpty cCollabBoom "T").exitCode = 1 ∧
    PyExc.typeName ⟨"RuntimeError", "provider unavailable"⟩ ≠ "" :=
  C3_collab_failure "llm_client.py" "x" [] _ cEnvEmpty cCollabBoom "T"
    [("message", .str "hi"), ("apiKey", .str "k")]
    ⟨"RuntimeError", "provider unavailable"⟩ rfl rfl rfl (by decide)
    (Or.inr (Or.inr ⟨rfl, rfl, rfl⟩))

/-- Claim C7: for every validated input on which session construction and
model selection succeed, the collaborator trace is exactly one session
construction keyed by `sessionId` and `systemMessage` (defaulted to the
literals `default` and `You are Shadow, an AI coding agent.` when absent),
one provider/model selection (defaulted to `openai` and `gpt-4o-mini`),
and exactly one message submission — a single attempt, whatever its
outcome, with no retries. -/
theorem C7_single_attempt (prog arg : String) (rest : List String)
    (parse : String → Except PyExc JVal) (env : String → Option String)
    (collab : Collaborator) (nowIso : String) (kvs : List (String × JVal))
    (hp : parse arg = .ok (.dict kvs))
    (hm : truthy (dictGet kvs "message" (.str "")) = true)
    (hk : truthy (dictGet kvs "apiKey"
            (.str (getenv env "EMERGENT_LLM_KEY" ""))) = true)
    (hc : collab.construct
            (dictGet kvs "apiKey" (.str (getenv env "EMERGENT_LLM_KEY" "")))
            (dictGet kvs "sessionId" (.str "default"))
            (dictGet kvs "systemMessage"
              (.str "You are Shadow, an AI coding agent.")) = Option.none)
    (hw : collab.withModel (dictGet kvs "provider" (.str "openai"))
            (dictGet kvs "model" (.str "gpt-4o-mini")) = Option.none) :
    (main (prog :: arg :: rest) parse env collab nowIso).trace =
      [CollabCall.construct
         (dictGet kvs "apiKey" (.str (getenv env "EMERGENT_LLM_KEY" "")))
         (dictGet kvs "sessionId" (.str "default"))
         (dictGet kvs "systemMessage"
           (.str "You are Shadow, an AI coding agent.")),
       CollabCall.withModel (dictGet kvs "provider" (.str "openai"))
         (dictGet kvs "model" (.str "gpt-4o-mini")),
       CollabCall.send (dictGet kvs "message" (.str ""))] := by
  rw [main_cons]
  cases hs : collab.send (dictGet kvs "message" (.str "")) <;>
    simp [mainArg, hp, asDict, mainDict, hm, hk, hc, hw, hs]

/-- Witness for C7: with all fields except `message` and `apiKey` absent,
the trace holds the three calls with the defaulted literals. -/
theorem C7_single_attempt_witness :
    (main ["llm_client.py", "x"]
        (cParseOf (.dict [("message", .str "hi"), ("apiKey", .str "k")]))
        cEnvEmpty cCollabEcho "T").trace =
      [CollabCall.construct (.str "k") (.str "default")
         (.str "You are Shadow, an AI coding agent."),
       CollabCall.withModel (.str "openai") (.str "gpt-4o-mini"),
       CollabCall.send (.str "hi")] :=
  C7_single_attempt "llm_client.py" "x" [] _ cEnvEmpty cCollabEcho "T"
    [("message", .str "hi"), ("apiKey", .str "k")] rfl rfl rfl rfl rfl

/-- Claim C1, counterexample to the claim as stated: on the concrete
invocation whose positional argument is not valid JSON, a ChatResult JSON
failure body IS written to standard output — the handler catches the parse
failure (the claim states no ChatResult JSON body is written and the
failure propagates uncaught). The exit code is 1. -/
theorem C1_counterexample :
    (main ["llm_client.py", "not json"] cParseBad cEnvEmpty
        cCollabEcho "T").out =
      [[("error", JVal.str "Expecting value: line 1 column 1 (char 0)"),
        ("type", JVal.str "JSONDecodeError")]] ∧
    (main ["llm_client.py", "not json"] cParseBad cEnvEmpty
        cCollabEcho "T").out ≠ [] ∧
    (main ["llm_client.py", "not json"] cParseBad cEnvEmpty
        cCollabEcho "T").exitCode = 1 := by
  refine ⟨rfl, ?_, rfl⟩
  simp [main, mainArg, cParseBad, excOut]

/-- Claim C1 as amended: a JSON parse failure of the positional argument
is caught by the blanket exception handler of the component: the handler
prints exactly the JSON object with field `error` set to the parser
message and field `type` set to the parser exception class name
(`JSONDecodeError`), makes no collaborator call, and exits with code 1. -/
theorem C1_parse_error_caught (prog arg : String) (rest : List String)
    (parse : String → Except PyExc JVal) (env : String → Option String)
    (collab : Collaborator) (nowIso : String) (e : PyExc)
    (hp : parse arg = .error e) :
    main (prog :: arg :: rest) parse env collab nowIso =
      ⟨[[("error", JVal.str e.msg), ("type", JVal.str e.typeName)]],
       [], 1⟩ := by
  rw [main_cons]
  simp [mainArg, hp, excOut]

/-- Witness for the amended C1 at the concrete malformed invocation. -/
theorem C1_parse_error_caught_witness :
    main ["llm_client.py", "not json"] cParseBad cEnvEmpty cCollabBoom "T" =
      ⟨[[("error", JVal.str "Expecting value: line 1 column 1 (char 0)"),
         ("type", JVal.str "JSONDecodeError")]], [], 1⟩ :=
  C1_parse_error_caught "llm_client.py" "not json" [] cParseBad cEnvEmpty
    cCollabBoom "T" ⟨"JSONDecodeError", "Expecting value: line 1 column 1 (char 0)"⟩
    rfl

/-- Every branch of the post-validation handler body prints exactly one
JSON object of ChatResult shape. -/
theorem mainDict_shape (kvs : List (String × JVal))
    (env : String → Option String) (collab : Collaborator)
    (nowIso : String) :
    ∃ o, (mainDict kvs env collab nowIso).out = [o] ∧
      (isSuccessShape o ∨ isFailureShape o) := by
  cases hm : truthy (dictGet kvs "message" (JVal.str "")) with
  | false =>
      exact ⟨[("error", JVal.str "No message provided")],
        by simp [mainDict, hm], Or.inr (Or.inl ⟨_, rfl⟩)⟩
  | true =>
      cases hk : truthy (dictGet kvs "apiKey"
          (JVal.str (getenv env "EMERGENT_LLM_KEY" ""))) with
      | false =>
          exact ⟨[("error", JVal.str "No API key provided")],
            by simp [mainDict, hm, hk], Or.inr (Or.inl ⟨_, rfl⟩)⟩
      | true =>
          cases hc : collab.construct
              (dictGet kvs "apiKey" (JVal.str (getenv env "EMERGENT_LLM_KEY" "")))
              (dictGet kvs "sessionId" (JVal.str "default"))
              (dictGet kvs "systemMessage"
                (JVal.str "You are Shadow, an AI coding agent.")) with
          | some e =>
              exact ⟨[("error", JVal.str e.msg), ("type", JVal.str e.typeName)],
                by simp [mainDict, excOut, hm, hk, hc],
                Or.inr (Or.inr ⟨e.msg, e.typeName, rfl⟩)⟩
          | none =>
              cases hw : collab.withModel
                  (dictGet kvs "provider" (JVal.str "openai"))
                  (dictGet kvs "model" (JVal.str "gpt-4o-mini")) with
              | some e =>
                  exact ⟨[("error", JVal.str e.msg), ("type", JVal.str e.typeName)],
                    by simp [mainDict, excOut, hm, hk, hc, hw],
                    Or.inr (Or.inr ⟨e.msg, e.typeName, rfl⟩)⟩
              | none =>
                  cases hs : collab.send (dictGet kvs "message" (JVal.str "")) with
                  | error e =>
                      exact ⟨[("error", JVal.str e.msg), ("type", JVal.str e.typeName)],
                        by simp [mainDict, excOut, hm, hk, hc, hw, hs],
                        Or.inr (Or.inr ⟨e.msg, e.typeName, rfl⟩)⟩
                  | ok R =>
                      exact ⟨[("success", JVal.bool true), ("response", JVal.str R),
                              ("timestamp", JVal.str nowIso)],
                        by simp [mainDict, hm, hk, hc, hw, hs],
                        Or.inl ⟨R, nowIso, rfl⟩⟩

/-- Claim C8: for every invocation whose positional argument, when
present, parses as JSON (of any shape) — including invocations with no
positional argument at all, which print the `No input provided` failure
body — exactly one JSON object is printed to standard output, one
newline-terminated line, and it matches one of the two ChatResult shapes:
the success shape with `success`, `response` and `timestamp`, or the
failure shape with `error` and optional `type`. -/
theorem C8_output_shape (argv : List String)
    (parse : String → Except PyExc JVal) (env : String → Option String)
    (collab : Collaborator) (nowIso : String)
    (hp : ∀ prog arg rest, argv = prog :: arg :: rest →
          ∃ v, parse arg = .ok v) :
    ∃ o, (main argv parse env collab nowIso).out = [o] ∧
      (isSuccessShape o ∨ isFailureShape o) := by
  rcases argv with _ | ⟨prog, _ | ⟨arg, rest⟩⟩
  · exact ⟨[("error", JVal.str "No input provided")], rfl,
      Or.inr (Or.inl ⟨_, rfl⟩)⟩
  · exact ⟨[("error", JVal.str "No input provided")], rfl,
      Or.inr (Or.inl ⟨_, rfl⟩)⟩
  · obtain ⟨v, hpv⟩ := hp prog arg rest rfl
    rw [main_cons]
    cases hv : asDict v with
    | error e =>
        have h : mainArg arg parse env collab nowIso =
            ⟨excOut e, [], 1⟩ := by simp [mainArg, hpv, hv]
        rw [h]
        exact ⟨[("error", JVal.str e.msg), ("type", JVal.str e.typeName)],
          rfl, Or.inr (Or.inr ⟨e.msg, e.typeName, rfl⟩)⟩
    | ok kvs =>
        have h : mainArg arg parse env collab nowIso =
            mainDict kvs env collab nowIso := by simp [mainArg, hpv, hv]
        rw [h]
        exact mainDict_shape kvs env collab nowIso

/-- Witness for C8 at a concrete invocation whose argument parses to a
non-object JSON value (the number 5), on which the dict-attribute access
raises `AttributeError`, still printed as a single ChatResult failure
body. -/
theorem C8_output_shape_witness :
    ∃ o, (main ["llm_client.py", "5"] (cParseOf (.int 5)) cEnvEmpty
        cCollabEcho "T").out = [o] ∧
      (isSuccessShape o ∨ isFailureShape o) :=
  C8_output_shape ["llm_client.py", "5"] _ cEnvEmpty cCollabEcho "T"
    (fun _ _ _ _ => ⟨.int 5, rfl⟩)

end LlmClient
